import Mathlib

/-!
Shallow embedding of the Healthcare Management System backend (`src/app.py`)
in Lean 4, together with theorems settling the frozen claims about it.

Modelling conventions:
* Python floats are modelled by `ℚ`; `round(x, 2)` is modelled as
  `round (x * 100) / 100` over `ℚ`.
* `str(n)` on a natural number is modelled via `Nat.digits 10` mapped to
  the decimal digit characters (no leading zeros, `"0"` for `0`).
* File I/O (`save_data`) is environmental: it is modelled by a boolean
  `saveOk` parameter where a claim depends on its failure, and assumed to
  succeed in the pure store operations otherwise.
* JSON values arriving in the `age` field may be numbers or strings; the
  inductive `AgeInput` captures both, and `pyInt` models Python's `int()`
  conversion on them (signed decimal parse for strings).
* Dates (`date.today()`) are environmental and carry no information used
  by any claim; the `date`/`date_added` fields are omitted from records.
-/

namespace Healthcare

deriving instance DecidableEq for Except

/-! ### Records stored in the four lists of `DataStore.data` -/

structure PatientRec where
  patient_id : String
  name : String
  age : Int
  contact : String
  history : String
  deriving DecidableEq

structure ApptRec where
  appointment_id : String
  patient_id : String
  doctor : String
  date : String
  time : String
  status : String
  deriving DecidableEq

structure BmiRec where
  patient_id : String
  weight : ℚ
  height : ℚ
  bmi : ℚ
  category : String
  deriving DecidableEq

structure SymRec where
  patient_id : String
  symptoms : String
  condition : String
  action : String
  deriving DecidableEq

/-- The in-memory store: four named lists, as in `DataStore._load_data`. -/
structure DataStore where
  patients : List PatientRec
  appointments : List ApptRec
  bmi : List BmiRec
  symptoms : List SymRec
  deriving DecidableEq

/-! ### Patient validation (`Patient._validate_input`, app.py lines 34-46) -/

/-- The `age` field of the JSON body: a number or a string. -/
inductive AgeInput where
  | num (i : Int)
  | str (s : String)
  deriving DecidableEq

/-- Decimal digit value of a character, `none` if not `'0'..'9'`. -/
def digitVal (c : Char) : Option Nat :=
  if '0' ≤ c ∧ c ≤ '9' then some (c.toNat - 48) else none

/-- Parse an unsigned run of decimal digits (nonempty, all digits). -/
def parseDigits : List Char → Option Nat
  | [] => none
  | [c] => digitVal c
  | c :: rest => do
    let d ← digitVal c
    let r ← parseDigits rest
    pure (d * 10 ^ rest.length + r)

/-- Models Python `int(s)` on a string: optional sign then decimal digits. -/
def parseIntStr (s : String) : Option Int :=
  match s.data with
  | '-' :: rest => (parseDigits rest).map (fun n => -(n : Int))
  | '+' :: rest => (parseDigits rest).map (fun n => (n : Int))
  | l => (parseDigits l).map (fun n => (n : Int))

/-- Models Python `int(age)` on a JSON number-or-string value. -/
def pyInt : AgeInput → Option Int
  | .num i => some i
  | .str s => parseIntStr s

/-- Models the body of the `try:` block in `_validate_input`: convert the age with
`int()` and range-check it, raising `"Age must be between 0-150"` when the
integer lies outside `[0, 150]`. -/
def ageCheckBody (age : AgeInput) : Except String Unit :=
  match pyInt age with
  | none => .error "invalid literal for int()"
  | some a => if a < 0 ∨ a > 150 then .error "Age must be between 0-150" else .ok ()

/-- Models the whole `try/except` around the age check: any `ValueError` raised
inside the `try:` block — including the out-of-range one — is caught by
`except ValueError` and replaced by `"Invalid age format"`. -/
def ageCheck (age : AgeInput) : Except String Unit :=
  match ageCheckBody age with
  | .error _ => .error "Invalid age format"
  | .ok () => .ok ()

/-- Models `re.match` against the pattern of ten decimal digits: exactly ten decimal digits. -/
def isTenDigits (contact : String) : Bool :=
  contact.length == 10 && contact.data.all (fun c => '0' ≤ c && c ≤ '9')

/-- Whitespace characters removed by Python `str.strip()`. -/
def isSpace (c : Char) : Bool :=
  c == ' ' || c == '\t' || c == '\n' || c == '\r' || c == '\x0b' || c == '\x0c'

/-- Models Python `name.strip()` on the character list: drop whitespace
from both ends. -/
def pyStrip (s : String) : List Char :=
  ((s.data.dropWhile isSpace).reverse.dropWhile isSpace).reverse

/-- Models `Patient._validate_input(name, age, contact)`. -/
def validate_input (name : String) (age : AgeInput) (contact : String) :
    Except String Unit :=
  if ((pyStrip name).length == 0 : Bool) then .error "Patient name cannot be empty"
  else if !isTenDigits contact then .error "Contact must be 10 digits"
  else ageCheck age

/-! ### Patient id generation (`Patient._generate_id`, app.py lines 48-50) -/

/-- Decimal digit character for a digit value (models the characters of
`str(n)`). -/
def digitChar (d : Nat) : Char := Char.ofNat (48 + d)

/-- Models Python `str(n)` for a natural number: most-significant digit
first, no leading zeros, `"0"` for zero. -/
def decRepr (n : Nat) : List Char :=
  if n = 0 then ['0'] else ((Nat.digits 10 n).map digitChar).reverse

/-- Models Python `str.zfill(3)`: left-pad with `'0'` to length three. -/
def zfill3 (l : List Char) : List Char :=
  List.replicate (3 - l.length) '0' ++ l

/-- Models `Patient._generate_id`: `"P" + str(Patient._patient_count + 1).zfill(3)`. -/
def generate_id (count : Nat) : String :=
  String.mk ('P' :: zfill3 (decRepr (count + 1)))

/-- Decimal value of a digit-character list, most-significant digit first
(a left inverse of `decRepr`, used to prove id uniqueness). -/
def natVal10 (l : List Char) : Nat :=
  l.foldl (fun a c => a * 10 + (c.toNat - 48)) 0

/-- Models `Patient.__init__`: validate, assign the id from the class counter,
store `int(age)`, and bump the counter.  Returns the record together with
the new value of `Patient._patient_count`; a validation failure leaves the
counter untouched and produces no record. -/
def Patient.create (count : Nat) (name : String) (age : AgeInput)
    (contact history : String) : Except String (PatientRec × Nat) :=
  match validate_input name age contact with
  | .error e => .error e
  | .ok () =>
    .ok ({ patient_id := generate_id count
           name := name
           age := (pyInt age).getD 0
           contact := contact
           history := history }, count + 1)

/-! ### HealthMetric (`HealthMetric.__init__` etc., app.py lines 93-121) -/

/-- Models Python `round(x, 2)` over `ℚ` (tie behaviour at exact
half-hundredths differs from float banker's rounding; no claim depends on
a tie). -/
def round2 (x : ℚ) : ℚ := (round (x * 100) : ℤ) / 100

/-- Models `HealthMetric._calculate_bmi`: `round(weight / height ** 2, 2)`. -/
def calculate_bmi (weight height : ℚ) : ℚ := round2 (weight / height ^ 2)

/-- Models `HealthMetric._categorize`. -/
def categorize (bmi : ℚ) : String :=
  if bmi < 18.5 then "Underweight"
  else if bmi < 25 then "Normal"
  else if bmi < 30 then "Overweight"
  else "Obese"

/-- Models `HealthMetric.__init__`: reject non-positive weight or height, then
compute the BMI and its category. -/
def HealthMetric.create (patient_id : String) (weight height : ℚ) :
    Except String BmiRec :=
  if weight ≤ 0 ∨ height ≤ 0 then .error "Weight and height must be positive"
  else
    let b := calculate_bmi weight height
    .ok { patient_id := patient_id, weight := weight, height := height
          bmi := b, category := categorize b }

/-! ### SymptomRecord (`SymptomRecord`, app.py lines 134-156) -/

/-- Does the needle occur at the start of the haystack? -/
def matchesAt : List Char → List Char → Bool
  | [], _ => true
  | _ :: _, [] => false
  | a :: as, b :: bs => a == b && matchesAt as bs

/-- Models Python's substring test `needle in haystack`. -/
def containsSub (needle : List Char) : List Char → Bool
  | [] => needle.isEmpty
  | c :: rest => matchesAt needle (c :: rest) || containsSub needle rest

/-- Models Python `str.lower()` on the ASCII range (all keywords are
ASCII). -/
def lowerChar (c : Char) : Char :=
  if 'A' ≤ c ∧ c ≤ 'Z' then Char.ofNat (c.toNat + 32) else c

/-- Lowercase a whole string. -/
def pyLower (s : String) : String := String.mk (s.data.map lowerChar)

/-- Models `SymptomRecord.SYMPTOM_MAP`, in dict insertion order. -/
def SYMPTOM_MAP : List (String × String × String) :=
  [("fever", "Fever", "Rest and drink water"),
   ("cough", "Cough", "Cough syrup and fluids"),
   ("headache", "Headache", "Rest and pain relief"),
   ("chest pain", "Chest Pain", "⚠️ See doctor immediately")]

/-- Models the loop of `SymptomRecord._detect_condition` over an already
lowercased symptom text: first table entry whose keyword is a substring
wins. -/
def detectFrom (lowered : String) : List (String × String × String) → String × String
  | [] => ("Unknown", "Consult doctor")
  | (key, condition, action) :: rest =>
    if containsSub key.data lowered.data then (condition, action)
    else detectFrom lowered rest

/-- Models `SymptomRecord._detect_condition` applied to the raw symptom text
(the constructor lowercases it first). -/
def detect_condition (symptoms : String) : String × String :=
  detectFrom (pyLower symptoms) SYMPTOM_MAP

/-- Models `SymptomRecord.__init__`: lowercase the text and detect the
condition and recommended action. -/
def SymptomRecord.create (patient_id symptoms : String) : SymRec :=
  let lowered := pyLower symptoms
  let (condition, action) := detectFrom lowered SYMPTOM_MAP
  { patient_id := patient_id, symptoms := lowered
    condition := condition, action := action }

/-! ### Store operations (`DataStore`, app.py lines 168-235)

The in-memory mutation of each operation; persistence (`save_data`) is
modelled by `save_data` below and threaded explicitly where a claim
depends on its failure. -/

/-- Models `DataStore.save_data`: rewrites the whole file; raises on `IOError`.
The environment decides success, modelled by the `saveOk` flag. -/
def save_data (saveOk : Bool) : Except String Unit :=
  if saveOk then .ok () else .error "Failed to save data: IOError"

/-- Models `DataStore.add_patient` (in-memory part): append the record.  The
append happens before `save_data` is called, so it is visible even when
persistence subsequently fails. -/
def DataStore.addPatient (s : DataStore) (p : PatientRec) : DataStore :=
  { s with patients := s.patients ++ [p] }

/-- Models `DataStore.delete_patient`: keep the patients whose id differs. -/
def DataStore.deletePatient (s : DataStore) (pid : String) : DataStore :=
  { s with patients := s.patients.filter (fun p => p.patient_id != pid) }

/-- Models `DataStore.add_appointment` (in-memory part). -/
def DataStore.addAppointment (s : DataStore) (a : ApptRec) : DataStore :=
  { s with appointments := s.appointments ++ [a] }

/-- Models `DataStore.delete_appointment`. -/
def DataStore.deleteAppointment (s : DataStore) (aid : String) : DataStore :=
  { s with appointments := s.appointments.filter (fun a => a.appointment_id != aid) }

/-- Models `DataStore.add_bmi` (in-memory part). -/
def DataStore.addBmi (s : DataStore) (b : BmiRec) : DataStore :=
  { s with bmi := s.bmi ++ [b] }

/-- Models `DataStore.delete_bmi`: remove all BMI records of the patient. -/
def DataStore.deleteBmi (s : DataStore) (pid : String) : DataStore :=
  { s with bmi := s.bmi.filter (fun b => b.patient_id != pid) }

/-- Models `DataStore.add_symptom` (in-memory part). -/
def DataStore.addSymptom (s : DataStore) (r : SymRec) : DataStore :=
  { s with symptoms := s.symptoms ++ [r] }

/-- Models `DataStore.delete_symptoms_by_patient`. -/
def DataStore.deleteSymptoms (s : DataStore) (pid : String) : DataStore :=
  { s with symptoms := s.symptoms.filter (fun r => r.patient_id != pid) }

/-! ### API routes (app.py lines 261-381)

Each route is a pure function from the request data and the current
store (plus the `Patient._patient_count` counter and the `saveOk`
environment flag where relevant) to an HTTP status code and the store
left behind. -/

/-- Models `POST /api/patients` (`create_patient`, wrapped in `handle_errors`):
construct the `Patient` (validating and bumping the class counter), append
it to the store, persist.  A `ValueError` from validation yields 400 with
the store untouched; an exception from `save_data` yields 500 — but the
append to the in-memory list has already happened by then. -/
def create_patient (s : DataStore) (count : Nat) (name : String)
    (age : AgeInput) (contact history : String) (saveOk : Bool) :
    Nat × DataStore × Nat :=
  match Patient.create count name age contact history with
  | .error _ => (400, s, count)
  | .ok (p, count') =>
    let s' := s.addPatient p
    match save_data saveOk with
    | .error _ => (500, s', count')
    | .ok () => (201, s', count')

/-- Models `DELETE /api/patients/<patient_id>` (`delete_patient`): delete the
patient, then cascade-delete the BMI and symptom records of that patient;
appointments are not touched.  Persistence assumed to succeed (the route
has no error decorator). -/
def delete_patient (s : DataStore) (pid : String) : Nat × DataStore :=
  (200, ((s.deletePatient pid).deleteBmi pid).deleteSymptoms pid)

/-- Models `DELETE /api/appointments/<appt_id>` (`delete_appointment`). -/
def delete_appointment (s : DataStore) (aid : String) : Nat × DataStore :=
  (200, s.deleteAppointment aid)

/-- Models `DELETE /api/bmi/<patient_id>` (`delete_bmi`). -/
def delete_bmi (s : DataStore) (pid : String) : Nat × DataStore :=
  (200, s.deleteBmi pid)

/-! ### Risk prediction (`predict_disease`, app.py lines 357-381) -/

/-- Models the expression `next((b for b in store.get_bmi() if ...), None)`:
the FIRST stored BMI record of the patient, in insertion order. -/
def selectBmi (s : DataStore) (pid : String) : Option BmiRec :=
  s.bmi.find? (fun b => b.patient_id == pid)

/-- The patient's symptom records, in insertion order. -/
def patientSymptoms (s : DataStore) (pid : String) : List SymRec :=
  s.symptoms.filter (fun r => r.patient_id == pid)

/-- Models `GET /api/predict/<patient_id>`: sequential accumulation of the risk
score and prediction labels, then the clamp `min(risk_score, 100)`. -/
def predict_disease (s : DataStore) (pid : String) : Nat × List String :=
  let acc0 : Nat × List String := (0, [])
  let acc1 :=
    match selectBmi s pid with
    | none => acc0
    | some b =>
      let accA :=
        if b.bmi > 30 then (acc0.1 + 40, acc0.2 ++ ["Diabetes (HIGH RISK)"]) else acc0
      if b.bmi > 25 then (accA.1 + 30, accA.2 ++ ["Heart Disease (MEDIUM RISK)"]) else accA
  let acc2 :=
    if (patientSymptoms s pid).length > 5 then
      (acc1.1 + 20, acc1.2 ++ ["Chronic Condition (MONITOR)"])
    else acc1
  (min acc2.1 100, acc2.2)

/-- Modelled from the spec (§4.2, for comparison with the code only):
risk prediction that selects the patient's MOST-RECENTLY-ADDED BMI record,
i.e. the last matching record in insertion order, with the same scoring
rules. -/
def predict_spec_last (s : DataStore) (pid : String) : Nat × List String :=
  let acc0 : Nat × List String := (0, [])
  let acc1 :=
    match (s.bmi.filter (fun b => b.patient_id == pid)).getLast? with
    | none => acc0
    | some b =>
      let accA :=
        if b.bmi > 30 then (acc0.1 + 40, acc0.2 ++ ["Diabetes (HIGH RISK)"]) else acc0
      if b.bmi > 25 then (accA.1 + 30, accA.2 ++ ["Heart Disease (MEDIUM RISK)"]) else accA
  let acc2 :=
    if (patientSymptoms s pid).length > 5 then
      (acc1.1 + 20, acc1.2 ++ ["Chronic Condition (MONITOR)"])
    else acc1
  (min acc2.1 100, acc2.2)

/-! ### Sequences of patient creations (for the id-uniqueness claim) -/

/-- One `POST /api/patients` body. -/
structure CreateInput where
  name : String
  age : AgeInput
  contact : String
  history : String

/-- Run a sequence of patient constructions against the class counter,
collecting each outcome; a failed validation leaves the counter alone. -/
def runCreates (count : Nat) : List CreateInput → List (Except String PatientRec) × Nat
  | [] => ([], count)
  | i :: rest =>
    match Patient.create count i.name i.age i.contact i.history with
    | .error e => (.error e :: (runCreates count rest).1, (runCreates count rest).2)
    | .ok (p, count') => (.ok p :: (runCreates count' rest).1, (runCreates count' rest).2)

/-- The identifiers assigned by the successful creations, in order. -/
def successIds (rs : List (Except String PatientRec)) : List String :=
  rs.filterMap (fun r => match r with | .ok p => some p.patient_id | .error _ => none)

/-- The number of successful creations. -/
def countOk (rs : List (Except String PatientRec)) : Nat :=
  (successIds rs).length

/-! ### Claim-side formula helpers and concrete example stores -/

/-- The BMI contribution to the risk score, as the spec states it (the two
threshold tests fire independently on the selected record's bmi). -/
def bmiPoints : Option ℚ → Nat
  | none => 0
  | some b => (if b > 30 then 40 else 0) + (if b > 25 then 30 else 0)

/-- The BMI contribution to the prediction labels, in code order. -/
def bmiLabels : Option ℚ → List String
  | none => []
  | some b =>
    (if b > 30 then ["Diabetes (HIGH RISK)"] else []) ++
      (if b > 25 then ["Heart Disease (MEDIUM RISK)"] else [])

/-- A store in which patient `"P001"` has two BMI records in insertion
order: first bmi 20, then bmi 32. -/
def firstVsLastStore : DataStore :=
  { patients := [], appointments := [],
    bmi := [{ patient_id := "P001", weight := 20, height := 1, bmi := 20, category := "Normal" },
            { patient_id := "P001", weight := 32, height := 1, bmi := 32, category := "Obese" }],
    symptoms := [] }

/-- A store in which patient `"P001"` has one BMI record with bmi 32 and no
symptom records. -/
def bmi32Store : DataStore :=
  { patients := [], appointments := [],
    bmi := [{ patient_id := "P001", weight := 32, height := 1, bmi := 32, category := "Obese" }],
    symptoms := [] }

/-- The store with all four lists empty. -/
def emptyStore : DataStore :=
  { patients := [], appointments := [], bmi := [], symptoms := [] }

/-- A store holding one record of each kind, all for patient `"P001"` and
appointment `"APT001"`. -/
def oneEachStore : DataStore :=
  { patients := [{ patient_id := "P001", name := "Alice", age := 30,
                   contact := "0123456789", history := "" }],
    appointments := [{ appointment_id := "APT001", patient_id := "P001",
                       doctor := "Dr. X", date := "2026-01-01", time := "10:00",
                       status := "Confirmed" }],
    bmi := [{ patient_id := "P001", weight := 80, height := 2, bmi := 20, category := "Normal" }],
    symptoms := [{ patient_id := "P001", symptoms := "fever", condition := "Fever",
                   action := "Rest and drink water" }] }

/-! ## Helper lemmas: BMI categorisation bands -/

theorem categorize_underweight (b : ℚ) (h : b < 18.5) : categorize b = "Underweight" := by
  unfold categorize
  rw [if_pos h]

theorem categorize_normal (b : ℚ) (h1 : 18.5 ≤ b) (h2 : b < 25) : categorize b = "Normal" := by
  unfold categorize
  split_ifs <;> first | rfl | (exfalso; linarith)

theorem categorize_overweight (b : ℚ) (h1 : 25 ≤ b) (h2 : b < 30) :
    categorize b = "Overweight" := by
  unfold categorize
  split_ifs <;> first | rfl | (exfalso; linarith)

theorem categorize_obese (b : ℚ) (h1 : 30 ≤ b) : categorize b = "Obese" := by
  unfold categorize
  split_ifs <;> first | rfl | (exfalso; linarith)

/-! ## Claim C5: stored BMI value and category bands -/

/-- **C5.** For every strictly positive weight and height, `HealthMetric`
construction succeeds, the stored BMI is `weight / height²` rounded to two
decimals, and the category is determined from that value by the bands
`<18.5 → Underweight`, `[18.5, 25) → Normal`, `[25, 30) → Overweight`,
`≥30 → Obese`; the six boundary examples of the spec evaluate as stated. -/
theorem claim_C5_bmi_rounding_and_bands (pid : String) (w h : ℚ)
    (hw : 0 < w) (hh : 0 < h) :
    HealthMetric.create pid w h =
      .ok { patient_id := pid, weight := w, height := h
            bmi := round2 (w / h ^ 2), category := categorize (round2 (w / h ^ 2)) } ∧
    (∀ b : ℚ, b < 18.5 → categorize b = "Underweight") ∧
    (∀ b : ℚ, 18.5 ≤ b → b < 25 → categorize b = "Normal") ∧
    (∀ b : ℚ, 25 ≤ b → b < 30 → categorize b = "Overweight") ∧
    (∀ b : ℚ, 30 ≤ b → categorize b = "Obese") ∧
    categorize (184/10) = "Underweight" ∧ categorize (185/10) = "Normal" ∧
    categorize (249/10) = "Normal" ∧ categorize 25 = "Overweight" ∧
    categorize (299/10) = "Overweight" ∧ categorize 30 = "Obese" := by
  have hc : ¬ (w ≤ 0 ∨ h ≤ 0) := by push_neg; exact ⟨hw, hh⟩
  refine ⟨?_, categorize_underweight, categorize_normal, categorize_overweight,
    categorize_obese, ?_, ?_, ?_, ?_, ?_, ?_⟩
  · simp [HealthMetric.create, hc, calculate_bmi]
  all_goals norm_num [categorize]

/-- Witness for C5 at weight 80 kg and height 2 m: BMI 20, category
"Normal". -/
theorem claim_C5_witness :
    (0 : ℚ) < 80 ∧ (0 : ℚ) < 2 ∧
    HealthMetric.create "P001" 80 2 =
      .ok { patient_id := "P001", weight := 80, height := 2
            bmi := round2 (80 / 2 ^ 2), category := categorize (round2 (80 / 2 ^ 2)) } ∧
    round2 (80 / 2 ^ 2) = 20 ∧ categorize (round2 (80 / 2 ^ 2)) = "Normal" :=
  ⟨by norm_num, by norm_num,
   (claim_C5_bmi_rounding_and_bands "P001" 80 2 (by norm_num) (by norm_num)).1,
   by norm_num [round2], by norm_num [round2, categorize]⟩

/-! ## Claim C10: construction is total and never divides by zero -/

/-- **C10.** `HealthMetric` construction either rejects the input with the
validation error (when `weight ≤ 0` or `height ≤ 0`) or performs the BMI
division with a strictly positive divisor `height²` and totally produces a
record. -/
theorem claim_C10_no_div_by_zero (pid : String) (w h : ℚ) :
    ((w ≤ 0 ∨ h ≤ 0) ∧
       HealthMetric.create pid w h = .error "Weight and height must be positive") ∨
    (0 < h ^ 2 ∧
       HealthMetric.create pid w h =
         .ok { patient_id := pid, weight := w, height := h
               bmi := round2 (w / h ^ 2), category := categorize (round2 (w / h ^ 2)) }) := by
  by_cases hc : w ≤ 0 ∨ h ≤ 0
  · exact Or.inl ⟨hc, by simp [HealthMetric.create, hc]⟩
  · have hpos : 0 < h := by
      rcases not_or.mp hc with ⟨-, hh⟩
      exact lt_of_not_le hh
    exact Or.inr ⟨pow_pos hpos 2, by simp [HealthMetric.create, hc, calculate_bmi]⟩

/-! ## Claim C6: symptom keyword detection -/

/-- **C6 counterexample.** At input `"chest pain"` the code returns the
action `"⚠️ See doctor immediately"` (with the warning-sign prefix), not
the claim's `"See doctor immediately"`; the two strings differ. -/
theorem claim_C6_counterexample :
    detect_condition "chest pain" = ("Chest Pain", "⚠️ See doctor immediately") ∧
    (("⚠️ See doctor immediately" : String) == "See doctor immediately") = false := by
  exact ⟨by decide, by decide⟩

/-- **C6 (amended).** Condition detection lowercases the input and returns
the pair of the first table entry whose keyword occurs as a substring, in
the fixed order fever, cough, headache, "chest pain" — the chest-pain
action being `"⚠️ See doctor immediately"` — and falls back to
`("Unknown", "Consult doctor")`; `"I have a fever and cough"` yields
condition `"Fever"`. -/
theorem claim_C6_first_match_wins (sy : String) :
    (containsSub "fever".data (pyLower sy).data = true →
       detect_condition sy = ("Fever", "Rest and drink water")) ∧
    (containsSub "fever".data (pyLower sy).data = false →
     containsSub "cough".data (pyLower sy).data = true →
       detect_condition sy = ("Cough", "Cough syrup and fluids")) ∧
    (containsSub "fever".data (pyLower sy).data = false →
     containsSub "cough".data (pyLower sy).data = false →
     containsSub "headache".data (pyLower sy).data = true →
       detect_condition sy = ("Headache", "Rest and pain relief")) ∧
    (containsSub "fever".data (pyLower sy).data = false →
     containsSub "cough".data (pyLower sy).data = false →
     containsSub "headache".data (pyLower sy).data = false →
     containsSub "chest pain".data (pyLower sy).data = true →
       detect_condition sy = ("Chest Pain", "⚠️ See doctor immediately")) ∧
    (containsSub "fever".data (pyLower sy).data = false →
     containsSub "cough".data (pyLower sy).data = false →
     containsSub "headache".data (pyLower sy).data = false →
     containsSub "chest pain".data (pyLower sy).data = false →
       detect_condition sy = ("Unknown", "Consult doctor")) ∧
    detect_condition "I have a fever and cough" = ("Fever", "Rest and drink water") := by
  refine ⟨?_, ?_, ?_, ?_, ?_, by decide⟩
  · intro h1
    simp [detect_condition, detectFrom, SYMPTOM_MAP, h1]
  · intro h1 h2
    simp [detect_condition, detectFrom, SYMPTOM_MAP, h1, h2]
  · intro h1 h2 h3
    simp [detect_condition, detectFrom, SYMPTOM_MAP, h1, h2, h3]
  · intro h1 h2 h3 h4
    simp [detect_condition, detectFrom, SYMPTOM_MAP, h1, h2, h3, h4]
  · intro h1 h2 h3 h4
    simp [detect_condition, detectFrom, SYMPTOM_MAP, h1, h2, h3, h4]

/-- Witness for C6 at the spec's overlapping input: `"fever"` occurs, and
the detector answers `"Fever"` with its action. -/
theorem claim_C6_witness :
    containsSub "fever".data (pyLower "I have a fever and cough").data = true ∧
    detect_condition "I have a fever and cough" = ("Fever", "Rest and drink water") :=
  ⟨by decide, (claim_C6_first_match_wins "I have a fever and cough").1 (by decide)⟩

/-! ## Claim C2: the two age validation messages -/

/-- Helper: the age check can only fail with the message
`"Invalid age format"` — the out-of-range message raised inside the `try:`
block is swallowed by the `except ValueError` clause. -/
theorem ageCheck_error_msg (age : AgeInput) (e : String)
    (h : ageCheck age = .error e) : e = "Invalid age format" := by
  unfold ageCheck at h
  split at h
  · injection h with h'
    exact h'.symm
  · simp at h

/-- Helper: every validation failure message is one of the three messages
the code can actually produce. -/
theorem validate_input_error_msg (name : String) (age : AgeInput)
    (contact : String) (e : String)
    (h : validate_input name age contact = .error e) :
    e = "Patient name cannot be empty" ∨ e = "Contact must be 10 digits" ∨
      e = "Invalid age format" := by
  unfold validate_input at h
  split_ifs at h
  · injection h with h'
    exact Or.inl h'.symm
  · injection h with h'
    exact Or.inr (Or.inl h'.symm)
  · exact Or.inr (Or.inr (ageCheck_error_msg age e h))

/-- **C2 (code bug).** An age that parses as an integer but lies outside
`[0, 150]` is rejected with `"Invalid age format"`, not with the claim's
`"Age must be between 0-150"`: the range error raised inside the `try:`
block is caught by its own `except ValueError` and replaced.  A
non-parsing age also yields `"Invalid age format"`, and an in-range age
passes. -/
theorem claim_C2_age_message_bug :
    validate_input "John" (.num 200) "0123456789" = .error "Invalid age format" ∧
    validate_input "John" (.num (-1)) "0123456789" = .error "Invalid age format" ∧
    validate_input "John" (.str "abc") "0123456789" = .error "Invalid age format" ∧
    validate_input "John" (.num 30) "0123456789" = .ok () ∧
    (("Invalid age format" : String) == "Age must be between 0-150") = false := by
  exact ⟨by decide, by decide, by decide, by decide, by decide⟩

/-! ## Claim C4: the risk score formula -/

/-- **C4.** The risk prediction equals the claim's formula: the BMI points
(40 for bmi > 30 plus, independently, 30 for bmi > 25) and labels from the
selected record, plus 20 points and the chronic label when the patient has
strictly more than 5 symptom records, the score clamped at 100; a patient
whose selected bmi is 32 with no symptom records scores 70 with exactly
the two BMI labels in order. -/
theorem claim_C4_risk_formula (s : DataStore) (pid : String) :
    predict_disease s pid =
      (min (bmiPoints ((selectBmi s pid).map BmiRec.bmi) +
              (if 5 < (patientSymptoms s pid).length then 20 else 0)) 100,
        bmiLabels ((selectBmi s pid).map BmiRec.bmi) ++
          (if 5 < (patientSymptoms s pid).length then ["Chronic Condition (MONITOR)"] else [])) ∧
    (predict_disease s pid).1 ≤ 100 ∧
    predict_disease bmi32Store "P001" =
      (70, ["Diabetes (HIGH RISK)", "Heart Disease (MEDIUM RISK)"]) := by
  have hmain : predict_disease s pid =
      (min (bmiPoints ((selectBmi s pid).map BmiRec.bmi) +
              (if 5 < (patientSymptoms s pid).length then 20 else 0)) 100,
        bmiLabels ((selectBmi s pid).map BmiRec.bmi) ++
          (if 5 < (patientSymptoms s pid).length then ["Chronic Condition (MONITOR)"] else [])) := by
    rcases hsel : selectBmi s pid with _ | b
    · by_cases hlen : 5 < (patientSymptoms s pid).length <;>
        norm_num [predict_disease, hsel, bmiPoints, bmiLabels, hlen]
    · by_cases h30 : b.bmi > 30 <;> by_cases h25 : b.bmi > 25 <;>
        by_cases hlen : 5 < (patientSymptoms s pid).length <;>
        norm_num [predict_disease, hsel, bmiPoints, bmiLabels, h30, h25, hlen]
  refine ⟨hmain, ?_, ?_⟩
  · rw [hmain]
    exact min_le_right _ _
  · norm_num [predict_disease, selectBmi, patientSymptoms, bmi32Store, List.find?]

/-! ## Claim C1: which BMI record the prediction uses -/

/-- Helper: the first element satisfying a predicate is the head of the
filtered list. -/
theorem find?_eq_filter_head? {α : Type} (p : α → Bool) (l : List α) :
    l.find? p = (l.filter p).head? := by
  induction l with
  | nil => rfl
  | cons a t ih =>
    cases hpa : p a with
    | true => rw [List.find?_cons_of_pos _ hpa, List.filter_cons_of_pos hpa, List.head?_cons]
    | false =>
      rw [List.find?_cons_of_neg _ (by simp [hpa]), List.filter_cons_of_neg (by simp [hpa]), ih]

/-- **C1 counterexample.** In a store where patient `"P001"` has an older
BMI record with bmi 20 and a newer one with bmi 32, the code scores 0 (it
reads the FIRST record, bmi 20), while selecting the most-recently-added
record (bmi 32) as the claim states would score 70. -/
theorem claim_C1_counterexample :
    predict_disease firstVsLastStore "P001" = (0, []) ∧
    predict_spec_last firstVsLastStore "P001" =
      (70, ["Diabetes (HIGH RISK)", "Heart Disease (MEDIUM RISK)"]) ∧
    ((predict_disease firstVsLastStore "P001" ==
        predict_spec_last firstVsLastStore "P001") = false) := by
  have h1 : predict_disease firstVsLastStore "P001" = (0, []) := by
    norm_num [predict_disease, selectBmi, patientSymptoms, firstVsLastStore, List.find?]
  have h2 : predict_spec_last firstVsLastStore "P001" =
      (70, ["Diabetes (HIGH RISK)", "Heart Disease (MEDIUM RISK)"]) := by
    norm_num [predict_spec_last, patientSymptoms, firstVsLastStore, List.filter,
      List.getLast?]
  refine ⟨h1, h2, ?_⟩
  rw [h1, h2]
  decide

/-- **C1 (amended).** The risk prediction bases its BMI contributions on
the patient's FIRST stored BMI record in insertion order (the earliest
added): if the filtered BMI list has head `b`, the code selects `b`, and
the prediction equals the prediction over a store whose only BMI record is
`b`. -/
theorem claim_C1_first_bmi_selected (s : DataStore) (pid : String) (b : BmiRec)
    (hb : (s.bmi.filter (fun r => r.patient_id == pid)).head? = some b) :
    selectBmi s pid = some b ∧
    predict_disease s pid = predict_disease { s with bmi := [b] } pid := by
  have hsel : selectBmi s pid = some b := by
    rw [selectBmi, find?_eq_filter_head?, hb]
  have hmem : b ∈ s.bmi.filter (fun r => r.patient_id == pid) := by
    rcases hl : s.bmi.filter (fun r => r.patient_id == pid) with _ | ⟨x, t⟩
    · rw [hl] at hb
      cases hb
    · rw [hl] at hb
      simp only [List.head?_cons, Option.some.injEq] at hb
      rw [hb] at hl
      rw [hl]
      exact List.mem_cons_self _ _
  have hpid : (b.patient_id == pid) = true := (List.mem_filter.mp hmem).2
  have hsel2 : selectBmi { s with bmi := [b] } pid = some b := by
    simp [selectBmi, List.find?_cons, hpid]
  exact ⟨hsel, by simp only [predict_disease, patientSymptoms, hsel, hsel2]⟩

/-- Witness for C1 (amended) on the two-record store: the head of the
filtered list is the bmi-20 record and the prediction only depends on it. -/
theorem claim_C1_witness :
    (firstVsLastStore.bmi.filter (fun r => r.patient_id == "P001")).head? =
      some { patient_id := "P001", weight := 20, height := 1, bmi := 20,
             category := "Normal" } ∧
    (selectBmi firstVsLastStore "P001" =
       some { patient_id := "P001", weight := 20, height := 1, bmi := 20,
              category := "Normal" } ∧
     predict_disease firstVsLastStore "P001" =
       predict_disease { firstVsLastStore with
         bmi := [{ patient_id := "P001", weight := 20, height := 1, bmi := 20,
                   category := "Normal" }] } "P001") :=
  ⟨by decide, claim_C1_first_bmi_selected firstVsLastStore "P001" _ (by decide)⟩

/-! ## Claim C3: atomicity of a create request -/

/-- **C3 counterexample.** When persistence fails on a valid
`POST /api/patients` against the empty store, the handler reports 500 but
the new record is still present in the in-memory store (one patient where
the claim requires the store to be left as it was, i.e. empty). -/
theorem claim_C3_counterexample :
    (create_patient emptyStore 0 "Alice" (.num 30) "0123456789" "" false).1 = 500 ∧
    (create_patient emptyStore 0 "Alice" (.num 30) "0123456789" "" false).2.1.patients.length = 1 ∧
    emptyStore.patients.length = 0 := by
  have hv : validate_input "Alice" (.num 30) "0123456789" = .ok () := by decide
  refine ⟨?_, ?_, rfl⟩ <;>
    simp [create_patient, Patient.create, hv, save_data, DataStore.addPatient, emptyStore]

/-- **C3 (amended).** A validation failure leaves the store exactly as it
was (HTTP 400, counter untouched); but a create whose validation succeeds
appends the record to the in-memory store regardless of persistence: with
persistence working the request returns 201, and when persistence fails it
returns 500 with the appended record still visible in the store. -/
theorem claim_C3_not_atomic_on_save_failure
    (s1 : DataStore) (c1 : Nat) (n1 : String) (a1 : AgeInput) (t1 h1 : String)
    (e : String) (hbad : validate_input n1 a1 t1 = .error e)
    (s2 : DataStore) (c2 : Nat) (n2 : String) (a2 : AgeInput) (t2 h2 : String)
    (hok : validate_input n2 a2 t2 = .ok ()) :
    (∀ saveOk, create_patient s1 c1 n1 a1 t1 h1 saveOk = (400, s1, c1)) ∧
    create_patient s2 c2 n2 a2 t2 h2 true =
      (201, s2.addPatient
        { patient_id := generate_id c2, name := n2, age := (pyInt a2).getD 0,
          contact := t2, history := h2 }, c2 + 1) ∧
    create_patient s2 c2 n2 a2 t2 h2 false =
      (500, s2.addPatient
        { patient_id := generate_id c2, name := n2, age := (pyInt a2).getD 0,
          contact := t2, history := h2 }, c2 + 1) := by
  refine ⟨fun saveOk => ?_, ?_, ?_⟩ <;>
    simp [create_patient, Patient.create, hbad, hok, save_data]

/-- Witness for C3 (amended): an empty name is rejected with the store
unchanged, and a valid creation against the empty store appends the record
under both persistence outcomes. -/
theorem claim_C3_witness :
    validate_input "" (.num 30) "0123456789" = .error "Patient name cannot be empty" ∧
    validate_input "Alice" (.num 30) "0123456789" = .ok () ∧
    ((∀ saveOk, create_patient emptyStore 0 "" (.num 30) "0123456789" "" saveOk =
        (400, emptyStore, 0)) ∧
     create_patient emptyStore 0 "Alice" (.num 30) "0123456789" "" true =
       (201, emptyStore.addPatient
         { patient_id := generate_id 0, name := "Alice", age := 30,
           contact := "0123456789", history := "" }, 1) ∧
     create_patient emptyStore 0 "Alice" (.num 30) "0123456789" "" false =
       (500, emptyStore.addPatient
         { patient_id := generate_id 0, name := "Alice", age := 30,
           contact := "0123456789", history := "" }, 1)) :=
  ⟨by decide, by decide,
   claim_C3_not_atomic_on_save_failure emptyStore 0 "" (.num 30) "0123456789" ""
     "Patient name cannot be empty" (by decide)
     emptyStore 0 "Alice" (.num 30) "0123456789" "" (by decide)⟩

/-! ## Claim C7: cascade delete and the appointments frame -/

/-- **C7.** Deleting a patient removes every patient, BMI, and symptom
record whose id equals the given id (and only those), answers 200, and
leaves the appointments list exactly unchanged. -/
theorem claim_C7_cascade_frame (s : DataStore) (pid : String) :
    delete_patient s pid =
      (200, { patients := s.patients.filter (fun p => p.patient_id != pid),
              appointments := s.appointments,
              bmi := s.bmi.filter (fun b => b.patient_id != pid),
              symptoms := s.symptoms.filter (fun r => r.patient_id != pid) }) := by
  rfl

/-! ## Claim C8: deletes of absent ids are idempotent no-ops -/

/-- **C8.** When the id matches no stored record, each delete endpoint
(patient, appointment, BMI) answers 200 and leaves the store exactly
unchanged; moreover each delete is idempotent on any store: deleting the
same id twice equals deleting it once. -/
theorem claim_C8_delete_idempotent (s : DataStore) (id : String)
    (hp : s.patients.all (fun p => p.patient_id != id) = true)
    (ha : s.appointments.all (fun a => a.appointment_id != id) = true)
    (hb : s.bmi.all (fun b => b.patient_id != id) = true)
    (hs : s.symptoms.all (fun r => r.patient_id != id) = true) :
    delete_patient s id = (200, s) ∧
    delete_appointment s id = (200, s) ∧
    delete_bmi s id = (200, s) ∧
    (∀ t : DataStore,
      (delete_patient (delete_patient t id).2 id).2 = (delete_patient t id).2 ∧
      (delete_appointment (delete_appointment t id).2 id).2 =
        (delete_appointment t id).2 ∧
      (delete_bmi (delete_bmi t id).2 id).2 = (delete_bmi t id).2) := by
  have hp' : s.patients.filter (fun p => p.patient_id != id) = s.patients :=
    List.filter_eq_self.mpr (by simpa using List.all_eq_true.mp hp)
  have ha' : s.appointments.filter (fun a => a.appointment_id != id) = s.appointments :=
    List.filter_eq_self.mpr (by simpa using List.all_eq_true.mp ha)
  have hb' : s.bmi.filter (fun b => b.patient_id != id) = s.bmi :=
    List.filter_eq_self.mpr (by simpa using List.all_eq_true.mp hb)
  have hs' : s.symptoms.filter (fun r => r.patient_id != id) = s.symptoms :=
    List.filter_eq_self.mpr (by simpa using List.all_eq_true.mp hs)
  refine ⟨?_, ?_, ?_, fun t => ⟨?_, ?_, ?_⟩⟩ <;>
    simp [delete_patient, delete_appointment, delete_bmi, DataStore.deletePatient,
      DataStore.deleteAppointment, DataStore.deleteBmi, DataStore.deleteSymptoms,
      List.filter_filter, hp', ha', hb', hs']

/-- Witness for C8 on a store holding one record of each kind, none of
which matches the id `"P999"`: all three deletes answer 200 and change
nothing. -/
theorem claim_C8_witness :
    (oneEachStore.patients.all (fun p => p.patient_id != "P999") = true ∧
     oneEachStore.appointments.all (fun a => a.appointment_id != "P999") = true ∧
     oneEachStore.bmi.all (fun b => b.patient_id != "P999") = true ∧
     oneEachStore.symptoms.all (fun r => r.patient_id != "P999") = true) ∧
    delete_patient oneEachStore "P999" = (200, oneEachStore) ∧
    delete_appointment oneEachStore "P999" = (200, oneEachStore) ∧
    delete_bmi oneEachStore "P999" = (200, oneEachStore) :=
  ⟨⟨by decide, by decide, by decide, by decide⟩,
   (claim_C8_delete_idempotent oneEachStore "P999"
     (by decide) (by decide) (by decide) (by decide)).1,
   (claim_C8_delete_idempotent oneEachStore "P999"
     (by decide) (by decide) (by decide) (by decide)).2.1,
   (claim_C8_delete_idempotent oneEachStore "P999"
     (by decide) (by decide) (by decide) (by decide)).2.2.1⟩

/-! ## Claim C9: patient ids are distinct and the counter advances -/

/-- Helper: the character of a decimal digit decodes back to its value. -/
theorem digitChar_toNat : ∀ d, d < 10 → (digitChar d).toNat = 48 + d := by decide

/-- Helper: folding the decimal-decoding step over the digit characters of
`k` (most-significant first) starting from accumulator `a` yields
`a * 10 ^ (number of digits) + k`. -/
theorem foldl_digits (k : Nat) : ∀ a : Nat,
    ((Nat.digits 10 k).map digitChar).reverse.foldl
        (fun a c => a * 10 + (c.toNat - 48)) a =
      a * 10 ^ (Nat.digits 10 k).length + k := by
  induction k using Nat.strong_induction_on with
  | _ k ih =>
    intro a
    rcases Nat.eq_zero_or_pos k with rfl | hk
    · simp
    · rw [Nat.digits_def' (by norm_num : (1:ℕ) < 10) hk, List.map_cons,
        List.reverse_cons, List.foldl_append,
        ih (k / 10) (Nat.div_lt_self hk (by norm_num)) a]
      simp only [List.foldl_cons, List.foldl_nil, List.length_cons]
      rw [digitChar_toNat _ (Nat.mod_lt _ (by norm_num))]
      have hmod : 10 * (k / 10) + k % 10 = k := Nat.div_add_mod k 10
      calc (a * 10 ^ (Nat.digits 10 (k / 10)).length + k / 10) * 10 + (48 + k % 10 - 48)
          = a * (10 ^ (Nat.digits 10 (k / 10)).length * 10) +
              (10 * (k / 10) + k % 10) := by
            rw [Nat.add_sub_cancel_left]
            ring
        _ = a * 10 ^ ((Nat.digits 10 (k / 10)).length + 1) + k := by rw [pow_succ, hmod]

/-- Helper: `natVal10` decodes `decRepr`. -/
theorem natVal10_decRepr (n : Nat) : natVal10 (decRepr n) = n := by
  rcases Nat.eq_zero_or_pos n with rfl | hn
  · decide
  · rw [decRepr, if_neg (Nat.pos_iff_ne_zero.mp hn)]
    show ((Nat.digits 10 n).map digitChar).reverse.foldl
        (fun a c => a * 10 + (c.toNat - 48)) 0 = n
    rw [foldl_digits n 0]
    simp

/-- Helper: left-padding with `'0'` does not change the decoded value. -/
theorem natVal10_zfill3 (l : List Char) : natVal10 (zfill3 l) = natVal10 l := by
  have hzeros : ∀ j, List.foldl (fun a c => a * 10 + (c.toNat - 48)) 0
      (List.replicate j '0') = 0 := by
    intro j
    induction j with
    | zero => rfl
    | succ j ih =>
      rw [List.replicate_succ, List.foldl_cons]
      simpa using ih
  rw [zfill3, natVal10, List.foldl_append, hzeros]
  rfl

/-- Helper: `generate_id` is injective. -/
theorem generate_id_injective (m n : Nat) (h : generate_id m = generate_id n) :
    m = n := by
  have hdata : 'P' :: zfill3 (decRepr (m + 1)) = 'P' :: zfill3 (decRepr (n + 1)) :=
    congrArg String.data h
  have h' : zfill3 (decRepr (m + 1)) = zfill3 (decRepr (n + 1)) :=
    (List.cons.injEq _ _ _ _ ▸ hdata).2
  have hv := congrArg natVal10 h'
  rw [natVal10_zfill3, natVal10_zfill3, natVal10_decRepr, natVal10_decRepr] at hv
  omega

/-- Helper: a successful construction assigns the id generated from the
incoming counter and advances the counter by exactly one. -/
theorem Patient.create_ok (count : Nat) (name : String) (age : AgeInput)
    (contact history : String) (p : PatientRec) (c' : Nat)
    (h : Patient.create count name age contact history = .ok (p, c')) :
    p.patient_id = generate_id count ∧ c' = count + 1 := by
  unfold Patient.create at h
  split at h
  · cases h
  · simp only [Except.ok.injEq, Prod.mk.injEq] at h
    exact ⟨by rw [← h.1], h.2.symm⟩

/-- Helper: `successIds` drops a failed creation. -/
theorem successIds_cons_error (e : String) (rs : List (Except String PatientRec)) :
    successIds (.error e :: rs) = successIds rs := by
  simp [successIds]

/-- Helper: `successIds` keeps a successful creation's id. -/
theorem successIds_cons_ok (p : PatientRec) (rs : List (Except String PatientRec)) :
    successIds (.ok p :: rs) = p.patient_id :: successIds rs := by
  simp [successIds]

/-- **C9.** Over any sequence of creation attempts starting from any
counter value: the final counter equals the initial one plus the number of
successful creations (failures do not advance it), the assigned ids are
exactly the ids generated from the consecutive counter values (so the
counter is strictly increasing across successive successful creations and
a failed creation assigns no id), and the assigned ids are pairwise
distinct. -/
theorem claim_C9_ids_unique_counter_monotone (count : Nat) (inputs : List CreateInput) :
    (runCreates count inputs).2 = count + countOk (runCreates count inputs).1 ∧
    successIds (runCreates count inputs).1 =
      (List.range (countOk (runCreates count inputs).1)).map
        (fun i => generate_id (count + i)) ∧
    (successIds (runCreates count inputs).1).Nodup := by
  induction inputs generalizing count with
  | nil => simp [runCreates, successIds, countOk]
  | cons i rest ih =>
    rcases hc : Patient.create count i.name i.age i.contact i.history with e | ⟨p, c'⟩
    · have hrun : runCreates count (i :: rest) =
          (.error e :: (runCreates count rest).1, (runCreates count rest).2) := by
        simp [runCreates, hc]
      rw [hrun]
      simpa [countOk, successIds_cons_error] using ih count
    · obtain ⟨hpid, hcnt⟩ := Patient.create_ok _ _ _ _ _ _ _ hc
      subst hcnt
      have hrun : runCreates count (i :: rest) =
          (.ok p :: (runCreates (count + 1) rest).1, (runCreates (count + 1) rest).2) := by
        simp [runCreates, hc]
      obtain ⟨ih1, ih2, ih3⟩ := ih (count + 1)
      rw [hrun]
      have hcO : countOk (Except.ok p :: (runCreates (count + 1) rest).1) =
          countOk ((runCreates (count + 1) rest).1) + 1 := by
        simp [countOk, successIds_cons_ok]
      refine ⟨?_, ?_, ?_⟩
      · rw [hcO, ih1]
        omega
      · rw [hcO, successIds_cons_ok, hpid, ih2, List.range_succ_eq_map,
          List.map_cons, List.map_map]
        refine congrArg₂ List.cons ?_ ?_
        · rw [Nat.add_zero]
        · apply List.map_congr_left
          intro j _
          simp only [Function.comp_apply]
          congr 1
          omega
      · rw [successIds_cons_ok, hpid]
        refine List.nodup_cons.mpr ⟨?_, ih3⟩
        rw [ih2]
        intro hmem
        obtain ⟨j, -, hgen⟩ := List.mem_map.mp hmem
        have := generate_id_injective _ _ hgen
        omega

end Healthcare
